import Mathlib

/-!
Verification of the SecureDesk session core against its specification.

This file gives a shallow embedding, in Lean 4, of the pure parts of the
SecureDesk repository (src/app/src-tauri/src): the frame codec
(protocol.rs), the P2PInfo codec (transport.rs), deterministic P2P port
selection (p2p.rs), STUN response parsing (stun.rs), device-id formatting
(crypto.rs), the host control-plane handlers (host.rs) and the client
session operations (client.rs).  Bytes are modelled as `Nat` values below
256; machine-integer wrap-around is made explicit with `% 2 ^ w`.
Fallible Rust functions returning `anyhow::Result` are modelled with
`Except String`; where a Rust slice index could panic, the result type
`PRes` has an extra `crash` constructor so that panic-freedom becomes a
provable statement.
-/

set_option maxHeartbeats 1000000

namespace SecureDesk

/-- Result of a Rust computation that can succeed, fail with an error
value, or panic (for example on an out-of-bounds slice index).  The
`crash` constructor models a panic. -/
inductive PRes (α : Type) where
  | ok (a : α)
  | err (msg : String)
  | crash
deriving DecidableEq

/-- Monadic sequencing for `PRes`: errors and panics propagate. -/
def PRes.bind {α β : Type} : PRes α → (α → PRes β) → PRes β
  | .ok a, f => f a
  | .err m, _ => .err m
  | .crash, _ => .crash

/-- True exactly on the panic result. -/
def PRes.isCrash {α : Type} : PRes α → Bool
  | .crash => true
  | _ => false

/-- True exactly on the error result. -/
def PRes.isErr {α : Type} : PRes α → Bool
  | .err _ => true
  | _ => false

/-- Rust indexing `data[i]` on a byte slice: panics when out of bounds. -/
def idx (data : List Nat) (i : Nat) : PRes Nat :=
  match data.get? i with
  | some b => .ok b
  | none => .crash

/-- Rust slicing `&data[i..]`: panics when `i` exceeds the length. -/
def slice (data : List Nat) (i : Nat) : PRes (List Nat) :=
  if i ≤ data.length then .ok (data.drop i) else .crash

/-- True exactly on the error result of an `Except`. -/
def exceptIsErr {ε α : Type} : Except ε α → Bool
  | .error _ => true
  | .ok _ => false

deriving instance DecidableEq for Except

/-! ## protocol.rs : channels and frames -/

/-- Maximum frame size, 16 MiB (`MAX_FRAME_SIZE` in protocol.rs). -/
def MAX_FRAME_SIZE : Nat := 16 * 1024 * 1024

/-- Protocol channels (`Channel` in protocol.rs). -/
inductive Channel where
  | control
  | video
  | input
  | clipboard
  | file
  | privacy
deriving DecidableEq

/-- Wire byte of a channel (the `#[repr(u8)]` discriminants). -/
def Channel.toByte : Channel → Nat
  | .control => 0x00
  | .video => 0x01
  | .input => 0x02
  | .clipboard => 0x03
  | .file => 0x04
  | .privacy => 0x05

/-- `Channel::try_from(u8)`: rejects any byte above 5. -/
def Channel.tryFrom (value : Nat) : Except String Channel :=
  if value = 0x00 then .ok .control
  else if value = 0x01 then .ok .video
  else if value = 0x02 then .ok .input
  else if value = 0x03 then .ok .clipboard
  else if value = 0x04 then .ok .file
  else if value = 0x05 then .ok .privacy
  else .error "Invalid channel"

/-- Protocol frame (`Frame` in protocol.rs). -/
structure Frame where
  channel : Channel
  payload : List Nat
deriving DecidableEq

/-- `Frame::control(msg_type, data)`: a Control frame whose payload is the
message-type byte followed by `data`. -/
def Frame.control' (msg_type : Nat) (data : List Nat) : Frame :=
  ⟨.control, msg_type :: data⟩

/-- `Frame::to_bytes`: 1-byte channel, 3-byte big-endian length (each
byte truncated by the `as u8` casts), then the payload. -/
def Frame.to_bytes (f : Frame) : List Nat :=
  let len := f.payload.length
  f.channel.toByte :: (len >>> 16) % 256 :: (len >>> 8) % 256 :: len % 256 :: f.payload

/-- Length field decoded from a frame header, as computed in
`Frame::from_bytes`: `(data[1] << 16) | (data[2] << 8) | data[3]`. -/
def headerLen (data : List Nat) : Nat :=
  data.getD 1 0 <<< 16 ||| data.getD 2 0 <<< 8 ||| data.getD 3 0

/-- `Frame::from_bytes`: parses the 4-byte header, rejects unknown
channels and lengths above 16 MiB, and copies the payload. -/
def Frame.from_bytes (data : List Nat) : Except String Frame :=
  if data.length < 4 then .error "Frame too short"
  else
    match Channel.tryFrom (data.getD 0 0) with
    | .error e => .error e
    | .ok channel =>
      let len := headerLen data
      if len > MAX_FRAME_SIZE then .error "Frame too large"
      else if data.length < 4 + len then .error "Frame incomplete"
      else .ok ⟨channel, (data.drop 4).take len⟩

/-! ## transport.rs : P2PInfo codec -/

/-- Socket address: IPv4 octets or IPv6 octet list, with a port. -/
inductive SocketAddr where
  | v4 (o1 o2 o3 o4 : Nat) (port : Nat)
  | v6 (octets : List Nat) (port : Nat)
deriving DecidableEq

/-- Encoding of one address inside `P2PInfo::encode`: a family byte
(4 or 6), the address octets, then the port in big-endian. -/
def encodeAddr : SocketAddr → List Nat
  | .v4 o1 o2 o3 o4 port => [4, o1, o2, o3, o4, port / 256 % 256, port % 256]
  | .v6 octets port => 6 :: (octets ++ [port / 256 % 256, port % 256])

/-- P2P connection info (`P2PInfo` in transport.rs). -/
structure P2PInfo where
  public_addr : Option SocketAddr
  local_addr : Option SocketAddr
  p2p_enabled : Bool
deriving DecidableEq

/-- `P2PInfo::encode`: enabled flag, then for each of public and local
address a presence byte followed, when present, by the encoded address. -/
def P2PInfo.encode (info : P2PInfo) : List Nat :=
  (if info.p2p_enabled then 1 else 0) ::
    ((match info.public_addr with
      | some a => 1 :: encodeAddr a
      | none => [0]) ++
      (match info.local_addr with
       | some a => 1 :: encodeAddr a
       | none => [0]))

/-- `P2PInfo::decode_addr`: family byte 4 or 6, octets, big-endian port. -/
def P2PInfo.decode_addr (data : List Nat) : PRes SocketAddr :=
  if data.length = 0 then .err "No address data"
  else
    (idx data 0).bind fun family =>
    if family = 4 then
      if data.length < 7 then .err "Invalid IPv4 address"
      else
        (idx data 1).bind fun o1 =>
        (idx data 2).bind fun o2 =>
        (idx data 3).bind fun o3 =>
        (idx data 4).bind fun o4 =>
        (idx data 5).bind fun ph =>
        (idx data 6).bind fun pl =>
        .ok (.v4 o1 o2 o3 o4 (ph * 256 + pl))
    else if family = 6 then
      if data.length < 19 then .err "Invalid IPv6 address"
      else
        (slice data 1).bind fun rest =>
        (idx data 17).bind fun ph =>
        (idx data 18).bind fun pl =>
        .ok (.v6 (rest.take 16) (ph * 256 + pl))
    else .err "Invalid IP version"

/-- Local-address half of `P2PInfo::decode`, entered at cursor `pos`:
when the byte at `pos` is 1 the following bytes are decoded as the local
address, otherwise the local address is absent. -/
def P2PInfo.decodeLocal (data : List Nat) (pos : Nat) (pub : Option SocketAddr)
    (en : Bool) : PRes P2PInfo :=
  if pos < data.length ∧ data.getD pos 0 = 1 then
    (slice data (pos + 1)).bind fun rest =>
    (P2PInfo.decode_addr rest).bind fun loc =>
    .ok ⟨pub, some loc, en⟩
  else .ok ⟨pub, none, en⟩

/-- `P2PInfo::decode`: reads the enabled flag at position 0, then the
public-address block; when a public address was present the cursor is
advanced by `if data.get(pos - 1) == Some(&4) then 6 else 18` exactly as
in the source (at that point `pos = 2`), and finally the local-address
block is read. -/
def P2PInfo.decode (data : List Nat) : PRes P2PInfo :=
  if data.length = 0 then .err "Empty P2P info"
  else
    (idx data 0).bind fun b0 =>
    let p2p_enabled : Bool := b0 != 0
    if 1 < data.length ∧ data.getD 1 0 = 1 then
      (slice data 2).bind fun rest =>
      (P2PInfo.decode_addr rest).bind fun pub =>
      let pos := 2 + (if data.get? (2 - 1) = some 4 then 6 else 18)
      P2PInfo.decodeLocal data pos (some pub) p2p_enabled
    else
      let pos := if 1 < data.length then 2 else 1
      P2PInfo.decodeLocal data pos none p2p_enabled

/-! ## p2p.rs : deterministic port selection -/

/-- The `acc = acc * 31 + b` fold over the bytes of the device id, with
u32 wrap-around (`wrapping_mul` / `wrapping_add` in choose_p2p_port). -/
def hashDeviceId (bytes : List Nat) : Nat :=
  bytes.foldl (fun acc b => (acc * 31 + b) % 4294967296) 0

/-- `choose_p2p_port`: the hash is truncated to u16 (`hash as u16`) and
then reduced modulo `65535 - 49152 = 16383`. -/
def choose_p2p_port (device_id : List Nat) : Nat :=
  let hash := hashDeviceId device_id
  let base_port := 49152
  let port_range := 65535 - base_port
  base_port + hash % 65536 % port_range

/-! ## stun.rs : binding-response parsing -/

/-- STUN magic cookie (RFC 5389). -/
def STUN_MAGIC_COOKIE : Nat := 0x2112A442

/-- Big-endian 16-bit read at offset `i`. -/
def be16 (data : List Nat) (i : Nat) : Nat :=
  data.getD i 0 * 256 + data.getD (i + 1) 0

/-- `parse_xor_mapped_address`: un-XORs the port against the top half of
the magic cookie and, for family 1 (IPv4), the address against the full
cookie.  Family 2 (IPv6) is unimplemented in the source. -/
def parse_xor_mapped_address (data : List Nat) : Except String SocketAddr :=
  if data.length < 8 then .error "XOR-MAPPED-ADDRESS too short"
  else
    let family := data.getD 1 0
    let xor_port := be16 data 2
    let port := xor_port ^^^ (STUN_MAGIC_COOKIE >>> 16)
    if family = 1 then
      let xor_ip := data.getD 4 0 * 16777216 + data.getD 5 0 * 65536 +
        data.getD 6 0 * 256 + data.getD 7 0
      let ip := xor_ip ^^^ STUN_MAGIC_COOKIE
      .ok (.v4 (ip >>> 24 % 256) (ip >>> 16 % 256) (ip >>> 8 % 256) (ip % 256) port)
    else if family = 2 then
      if data.length < 20 then .error "XOR-MAPPED-ADDRESS IPv6 too short"
      else .error "IPv6 XOR-MAPPED-ADDRESS not implemented"
    else .error "Unknown address family"

/-- `parse_mapped_address`: plain MAPPED-ADDRESS fallback. -/
def parse_mapped_address (data : List Nat) : Except String SocketAddr :=
  if data.length < 8 then .error "MAPPED-ADDRESS too short"
  else
    let family := data.getD 1 0
    let port := be16 data 2
    if family = 1 then
      .ok (.v4 (data.getD 4 0) (data.getD 5 0) (data.getD 6 0) (data.getD 7 0) port)
    else if family = 2 then
      if data.length < 20 then .error "MAPPED-ADDRESS IPv6 too short"
      else .ok (.v6 ((data.drop 4).take 16) port)
    else .error "Unknown address family"

/-- Attribute walk of `parse_binding_response`: scans attributes from
`pos` up to `msgEnd`, returning the first XOR-MAPPED-ADDRESS or
MAPPED-ADDRESS.  The Rust padding `(attr_len + 3) & !3` rounds down to a
multiple of 4, written here as `(attr_len + 3) / 4 * 4`. -/
def findAttr (data : List Nat) (msgEnd : Nat) (pos : Nat) : Except String SocketAddr :=
  if h : pos + 4 ≤ msgEnd then
    let attr_type := be16 data pos
    let attr_len := be16 data (pos + 2)
    if pos + 4 + attr_len > data.length then .error "No mapped address in STUN response"
    else if attr_type = 0x0020 then
      parse_xor_mapped_address ((data.drop (pos + 4)).take attr_len)
    else if attr_type = 0x0001 then
      parse_mapped_address ((data.drop (pos + 4)).take attr_len)
    else findAttr data msgEnd (pos + 4 + (attr_len + 3) / 4 * 4)
  else .error "No mapped address in STUN response"
termination_by msgEnd - pos
decreasing_by omega

/-- `parse_binding_response`: checks the message type and length, then
walks the attributes. -/
def parse_binding_response (data : List Nat) : Except String SocketAddr :=
  if data.length < 20 then .error "STUN response too short"
  else
    let msg_type := be16 data 0
    if msg_type ≠ 0x0101 then .error "Not a binding response"
    else
      let msg_len := be16 data 2
      if data.length < 20 + msg_len then .error "STUN response truncated"
      else findAttr data (20 + msg_len) 20

/-- The binding response of scenario S2: type 0x0101, length 12, magic
cookie, a zero transaction id, and one XOR-MAPPED-ADDRESS attribute with
family 0x01, xor-port 0x3952 and xor-ip 0xE1BA4256. -/
def stunScenarioResponse : List Nat :=
  [0x01, 0x01, 0x00, 0x0C, 0x21, 0x12, 0xA4, 0x42,
   0, 0, 0, 0, 0, 0, 0, 0, 0, 0, 0, 0,
   0x00, 0x20, 0x00, 0x08,
   0x00, 0x01, 0x39, 0x52, 0xE1, 0xBA, 0x42, 0x56]

/-! ## crypto.rs : device-id derivation and formatting -/

/-- `u64::from_le_bytes` over the first eight bytes of the BLAKE3 hash
(`Identity::device_id`).  The hash itself is computed by the external
blake3 crate, so the 32-byte digest is taken here as the input. -/
def u64_from_le8 (b : List Nat) : Nat :=
  b.getD 0 0 + b.getD 1 0 * 256 + b.getD 2 0 * 65536 + b.getD 3 0 * 16777216 +
    b.getD 4 0 * 4294967296 + b.getD 5 0 * 1099511627776 +
    b.getD 6 0 * 281474976710656 + b.getD 7 0 * 72057594037927936

/-- Decimal digit characters of `n`, most significant first, as Rust's
`Display` for integers prints them (a single '0' for zero). -/
def decimalDigits (n : Nat) : List Char :=
  if _h : n < 10 then [Nat.digitChar n]
  else decimalDigits (n / 10) ++ [Nat.digitChar (n % 10)]
termination_by n
decreasing_by omega

/-- Rust `format!("{:09}", num)`: the decimal digits left-padded with
zeros to width nine. -/
def padNineId (num : Nat) : List Char :=
  List.replicate (9 - (decimalDigits num).length) '0' ++ decimalDigits num

/-- `Identity::device_id` from the point where the BLAKE3 digest is
available: first eight digest bytes as a little-endian u64, reduced
mod 10^9, zero-padded to nine digits and split `id[0..3] id[3..6]
id[6..9]` with single spaces. -/
def Identity.device_id (hash : List Nat) : String :=
  let num := u64_from_le8 hash % 1000000000
  let id := padNineId num
  String.mk (id.take 3 ++ ' ' :: ((id.drop 3).take 3 ++ ' ' :: (id.drop 6).take 3))

/-- Digit characters `k` wide of `n`, most significant first, written
arithmetically: position `i` holds `n / 10 ^ i % 10`. -/
def arithDigits (k n : Nat) : List Char :=
  (List.range k).reverse.map fun i => Nat.digitChar (n / 10 ^ i % 10)

/-- Spec-side device-id format, following the specification's words: the
value mod 10^9 written as three groups of three decimal digits joined by
single spaces. -/
def specDeviceIdFormat (num : Nat) : String :=
  String.mk (arithDigits 3 (num / 1000000) ++
    ' ' :: (arithDigits 3 (num / 1000 % 1000) ++ ' ' :: arithDigits 3 (num % 1000)))

/-! ## Control message codes (protocol.rs) -/

/-- Control code HANDSHAKE. -/
def HANDSHAKE : Nat := 0x01

/-- Control code SESSION_REQUEST. -/
def SESSION_REQUEST : Nat := 0x02

/-- Control code SESSION_ACCEPT. -/
def SESSION_ACCEPT : Nat := 0x03

/-- Control code SESSION_END. -/
def SESSION_END : Nat := 0x04

/-! ## host.rs : Noise responder handling (HANDSHAKE arm) -/

/-- Modelled from the spec: the snow crate's Noise XK handshake state for
the responder, abstracted to the number of pattern messages consumed or
produced so far.  Noise XK exchanges three messages; the responder reads
messages 0 and 2 and writes message 1, and a read fails unless the
incoming message is the one the state expects next. -/
structure NoiseResponder where
  consumed : Nat
deriving DecidableEq

/-- `Identity::create_responder`: a fresh responder state. -/
def Identity.create_responder : NoiseResponder := ⟨0⟩

/-- Modelled from the spec: `HandshakeState::read_message` on the
responder side succeeds only when the incoming message index matches the
next expected message and it is the initiator's turn. -/
def NoiseResponder.read_message (r : NoiseResponder) (msgIdx : Nat) :
    Except String NoiseResponder :=
  if msgIdx = r.consumed ∧ r.consumed % 2 = 0 then .ok ⟨r.consumed + 1⟩
  else .error "Noise handshake parse error"

/-- Modelled from the spec: `HandshakeState::write_message` produces the
next handshake message and advances the state. -/
def NoiseResponder.write_message (r : NoiseResponder) : NoiseResponder × Nat :=
  (⟨r.consumed + 1⟩, r.consumed)

/-- Modelled from the spec: the XK handshake is finished when all three
pattern messages have been processed. -/
def NoiseResponder.is_handshake_finished (r : NoiseResponder) : Bool :=
  3 ≤ r.consumed

/-- Host session state relevant to the HANDSHAKE arm: whether a
SecureChannel has been installed (`self.channel` in host.rs). -/
structure HostHandshakeState where
  channelInstalled : Bool
deriving DecidableEq

/-- The `HANDSHAKE` arm of `HostSession::handle_control_with_events`: a
responder is created afresh with `self.identity.create_responder()`, one
message is read, one response is written and sent, and the SecureChannel
is installed only if that fresh responder reports the handshake
finished.  Returns the new state and the index of the emitted response
message. -/
def hostHandleHandshake (st : HostHandshakeState) (msgIdx : Nat) :
    Except String (HostHandshakeState × Nat) :=
  let responder := Identity.create_responder
  match responder.read_message msgIdx with
  | .error e => .error e
  | .ok r1 =>
    let wr := r1.write_message
    if wr.1.is_handshake_finished then .ok ({ st with channelInstalled := true }, wr.2)
    else .ok (st, wr.2)

/-! ## host.rs : SESSION_REQUEST arm -/

/-- Outcome of the 30-second approval wait
(`timeout(Duration::from_secs(30), rx.recv())`). -/
inductive ApprovalOutcome where
  | reply (b : Bool)
  | channelClosed
  | timedOut
deriving DecidableEq

/-- The `.unwrap_or(None).unwrap_or(false)` collapse: a missing reply —
closed channel or timeout — counts as decline. -/
def approvalResult : ApprovalOutcome → Bool
  | .reply b => b
  | .channelClosed => false
  | .timedOut => false

/-- Observable actions of the host during the SESSION_REQUEST arm, in
program order. -/
inductive HostAction where
  | storePending (remote_id : List Nat)
  | emitConnectionRequest (remote_id : List Nat)
  | awaitApproval (timeoutSecs : Nat)
  | clearPending
  | sendFrame (f : Frame)
deriving DecidableEq

/-- UTF-8 bytes of the fallback id string used when the request payload
carries no id. -/
def unknownId : List Nat := [0x55, 0x6E, 0x6B, 0x6E, 0x6F, 0x77, 0x6E]

/-- The `SESSION_REQUEST` arm of
`HostSession::handle_control_with_events`: extract the remote id from the
payload bytes after the message type, store a PendingConnection, emit the
connection-request event, wait up to 30 s for approval, clear the pending
slot, then send SESSION_ACCEPT `[0x01]` on approval and SESSION_END
`[0x00]` otherwise.  Returns the action trace and the final pending
slot. -/
def sessionRequestArm (payload : List Nat) (outcome : ApprovalOutcome) :
    List HostAction × Option (List Nat) :=
  let remote_id := if 1 < payload.length then payload.drop 1 else unknownId
  let accepted := approvalResult outcome
  let reply :=
    if accepted then Frame.control' SESSION_ACCEPT [0x01]
    else Frame.control' SESSION_END [0x00]
  ([.storePending remote_id, .emitConnectionRequest remote_id,
    .awaitApproval 30, .clearPending, .sendFrame reply], none)

/-- Frames sent during a host action trace, in order. -/
def sentFrames (tr : List HostAction) : List Frame :=
  tr.filterMap fun a =>
    match a with
    | .sendFrame f => some f
    | _ => none

/-! ## client.rs : registration reply check and video request -/

/-- The registration-reply check in `ClientSession::connect_with_p2p`:
the connection fails exactly when the reply frame has channel 0 and a
nonempty payload whose first byte is 0xFF, and the error carries the
remaining payload bytes (decoded as UTF-8 in the source). -/
def connectRegistrationCheck (channel : Nat) (payload : List Nat) :
    Except (List Nat) Unit :=
  if channel = 0 ∧ payload.length ≠ 0 ∧ payload.getD 0 0 = 0xFF then
    .error (payload.drop 1)
  else .ok ()

/-- `ClientSession::request_and_receive_frame`, as a function of the one
response frame it reads: the first component is the Video request frame
`[0x03]` it writes, the second the parsed result — `none` when the
response is off-channel or its payload is shorter than 13 bytes,
otherwise the little-endian width at bytes 1..3, height at bytes 3..5,
and the data from byte 13 on. -/
def requestAndReceiveFrame (response : Frame) :
    Frame × Option (Nat × Nat × List Nat) :=
  (⟨.video, [0x03]⟩,
    if response.channel ≠ .video then none
    else if response.payload.length < 13 then none
    else
      some (response.payload.getD 1 0 + response.payload.getD 2 0 * 256,
        response.payload.getD 3 0 + response.payload.getD 4 0 * 256,
        response.payload.drop 13))

/-- Payload built by `HostSession::send_video_frame`: keyframe byte 0x01,
width and height as little-endian u16 (the `as u16` casts wrap at
65536), a zero u64 timestamp, then the JPEG bytes. -/
def send_video_frame_payload (width height : Nat) (jpeg : List Nat) : List Nat :=
  0x01 :: (width % 65536 % 256) :: (width % 65536 / 256 % 256) ::
    (height % 65536 % 256) :: (height % 65536 / 256 % 256) ::
    ([0, 0, 0, 0, 0, 0, 0, 0] ++ jpeg)

/-! ## Theorems -/

/-- C1: the P2PInfo round-trip fails.  At the concrete value with both a
public and a local IPv4 address, `decode (encode x)` succeeds but drops
the local address: the cursor-skip in `decode` consults `data[pos - 1]`,
which at that point is the presence byte (always 1, never 4), so it
always advances by 18 and lands past the local-address block. -/
theorem p2pinfo_roundtrip_drops_local_addr :
    P2PInfo.decode (P2PInfo.encode ⟨some (.v4 1 2 3 4 80), some (.v4 5 6 7 8 90), true⟩) =
      .ok ⟨some (.v4 1 2 3 4 80), none, true⟩ ∧
    P2PInfo.decode (P2PInfo.encode ⟨some (.v4 1 2 3 4 80), some (.v4 5 6 7 8 90), true⟩) ≠
      .ok ⟨some (.v4 1 2 3 4 80), some (.v4 5 6 7 8 90), true⟩ := by
  decide

/-- C4 counterexample: for the id "aaa" (bytes 97 97 97) the code's port
differs from `49152 + (h mod 16383)` because the code truncates the hash
to u16 before the modulus: the code yields 63554, the claimed formula
63558. -/
theorem choose_p2p_port_ne_claimed_formula :
    choose_p2p_port [97, 97, 97] ≠ 49152 + hashDeviceId [97, 97, 97] % 16383 ∧
    choose_p2p_port [97, 97, 97] = 63554 ∧
    49152 + hashDeviceId [97, 97, 97] % 16383 = 63558 := by
  decide

/-- C4 amended: `choose_p2p_port id` equals
`49152 + ((h mod 2^16) mod 16383)` where `h` is the wrapping
`acc * 31 + b` fold over the bytes of `id`; being a pure function of the
id it is the same on every call, and the result always lies in
`[49152, 65534]`. -/
theorem choose_p2p_port_formula (device_id : List Nat) :
    choose_p2p_port device_id = 49152 + hashDeviceId device_id % 65536 % 16383 ∧
    49152 ≤ choose_p2p_port device_id ∧ choose_p2p_port device_id ≤ 65534 := by
  refine ⟨rfl, ?_, ?_⟩ <;> simp only [choose_p2p_port] <;> omega

/-- C5 counterexample: the scenario response does not parse to the
claimed `192.168.1.20:6464`. -/
theorem stun_scenario_ne_claimed_value :
    parse_binding_response stunScenarioResponse ≠ .ok (.v4 192 168 1 20 6464) := by
  rw [parse_binding_response]
  norm_num [stunScenarioResponse, be16]
  rw [findAttr]
  norm_num [be16]
  decide

/-- C5 amended: parsing the scenario response — XOR-MAPPED-ADDRESS with
family 0x01, xor-port 0x3952, xor-ip 0xE1BA4256 — returns IPv4
192.168.230.20 with port 6208, which are exactly the XORs of those
fields against 0x2112 and 0x2112A442. -/
theorem stun_scenario_decodes :
    parse_binding_response stunScenarioResponse = .ok (.v4 192 168 230 20 6208) ∧
    0x3952 ^^^ (STUN_MAGIC_COOKIE >>> 16) = 6208 ∧
    0xE1BA4256 ^^^ STUN_MAGIC_COOKIE = 0xC0A8E614 := by
  refine ⟨?_, by decide, by decide⟩
  rw [parse_binding_response]
  norm_num [stunScenarioResponse, be16]
  rw [findAttr]
  norm_num [be16]
  decide

/-- C8 counterexample: a registration reply on channel 0 whose first
payload byte is 0x42 — not the success byte 0x01 — is nevertheless
treated as success, because the code only tests for the 0xFF error
marker. -/
theorem connect_success_without_success_byte :
    connectRegistrationCheck 0 [0x42] = .ok () ∧ (0x42 : Nat) ≠ 0x01 := by
  decide

/-- C8 amended: `ClientSession::connect` fails on the registration reply
exactly when the reply has channel 0 and a nonempty payload starting
with 0xFF, and in that case the error carries the remaining payload
bytes (the UTF-8 message); every other reply, whatever its first byte,
is treated as registration success. -/
theorem connect_registration_check_spec (channel : Nat) (payload : List Nat) :
    (exceptIsErr (connectRegistrationCheck channel payload) = true ↔
      channel = 0 ∧ payload.length ≠ 0 ∧ payload.getD 0 0 = 0xFF) ∧
    (channel = 0 → payload.length ≠ 0 → payload.getD 0 0 = 0xFF →
      connectRegistrationCheck channel payload = .error (payload.drop 1)) := by
  unfold connectRegistrationCheck
  constructor
  · split
    · simp_all [exceptIsErr]
    · simp_all [exceptIsErr]
  · intro h1 h2 h3
    rw [if_pos ⟨h1, h2, h3⟩]

/-- Witness for `connect_registration_check_spec` at a concrete failing
reply. -/
theorem connect_registration_check_spec_witness :
    connectRegistrationCheck 0 [0xFF, 104, 105] = .error [104, 105] :=
  (connect_registration_check_spec 0 [0xFF, 104, 105]).2 rfl (by decide) (by decide)

/-- C2: the HANDSHAKE arm of the host never installs the Secure
Channel, and the initiator's final XK message (pattern index 2) is
rejected — because `create_responder()` is called afresh for every
HANDSHAKE frame, the responder state never advances past one
read-write round, so `is_handshake_finished` is never true.  This
contradicts the claim that a single responder state advances across the
messages and the channel is installed exactly at `is_finished`. -/
theorem host_handshake_never_installs_channel :
    (∀ (st : HostHandshakeState) (m : Nat) (out : HostHandshakeState × Nat),
      hostHandleHandshake st m = .ok out → out.1.channelInstalled = st.channelInstalled) ∧
    (∀ st : HostHandshakeState, exceptIsErr (hostHandleHandshake st 2) = true) := by
  constructor
  · intro st m out h
    by_cases hm : m = 0
    · subst hm
      have e : hostHandleHandshake st 0 = .ok (st, 1) := rfl
      rw [e] at h
      injection h with h2
      rw [← h2]
    · have e : hostHandleHandshake st m = .error "Noise handshake parse error" := by
        simp [hostHandleHandshake, Identity.create_responder, NoiseResponder.read_message, hm]
      rw [e] at h
      exact absurd h (by simp)
  · intro st
    have e : hostHandleHandshake st 2 = .error "Noise handshake parse error" := by
      simp [hostHandleHandshake, Identity.create_responder, NoiseResponder.read_message]
    rw [e]
    rfl

/-- Witness for `host_handshake_never_installs_channel` at the concrete
first handshake message and an initially empty channel slot. -/
theorem host_handshake_never_installs_channel_witness :
    ((⟨false⟩, 1) : HostHandshakeState × Nat).1.channelInstalled =
      HostHandshakeState.channelInstalled ⟨false⟩ ∧
    exceptIsErr (hostHandleHandshake ⟨false⟩ 2) = true :=
  ⟨host_handshake_never_installs_channel.1 ⟨false⟩ 0 (⟨false⟩, 1) (by decide),
   host_handshake_never_installs_channel.2 ⟨false⟩⟩

/-- C7: on SESSION_REQUEST the host stores a PendingConnection holding
the remote id taken from the payload, waits up to 30 seconds for the
approval reply, sends Control `[SESSION_ACCEPT, 0x01]` when the reply is
true and Control `[SESSION_END, 0x00]` when the reply is false, the
channel is closed, or the wait times out; the pending slot ends as None
and the clear strictly precedes the reply frame in the action trace. -/
theorem session_request_arm_spec (payload : List Nat) (outcome : ApprovalOutcome) :
    (sessionRequestArm payload outcome).2 = none ∧
    (1 < payload.length →
      (sessionRequestArm payload outcome).1.get? 0 =
        some (.storePending (payload.drop 1))) ∧
    (sessionRequestArm payload outcome).1.get? 2 = some (.awaitApproval 30) ∧
    (outcome = .reply true →
      sentFrames (sessionRequestArm payload outcome).1 =
        [⟨.control, [0x03, 0x01]⟩]) ∧
    (outcome = .reply false ∨ outcome = .channelClosed ∨ outcome = .timedOut →
      sentFrames (sessionRequestArm payload outcome).1 =
        [⟨.control, [0x04, 0x00]⟩]) ∧
    (∃ i j, i < j ∧ (sessionRequestArm payload outcome).1.get? i = some .clearPending ∧
      ∃ f, (sessionRequestArm payload outcome).1.get? j = some (.sendFrame f)) := by
  refine ⟨rfl, ?_, rfl, ?_, ?_, ⟨3, 4, by omega, rfl, ⟨_, rfl⟩⟩⟩
  · intro h
    simp [sessionRequestArm, h]
  · intro h
    subst h
    rfl
  · intro h
    rcases h with h | h | h <;> subst h <;> rfl

/-- Witness for `session_request_arm_spec` at a concrete request payload
and both an accepting reply and a timeout. -/
theorem session_request_arm_spec_witness :
    (sessionRequestArm [0x02, 53, 53] (.reply true)).2 = none ∧
    (sessionRequestArm [0x02, 53, 53] (.reply true)).1.get? 0 =
      some (.storePending [53, 53]) ∧
    sentFrames (sessionRequestArm [0x02, 53, 53] (.reply true)).1 =
      [⟨.control, [0x03, 0x01]⟩] ∧
    sentFrames (sessionRequestArm [0x02, 53, 53] .timedOut).1 =
      [⟨.control, [0x04, 0x00]⟩] :=
  ⟨(session_request_arm_spec [0x02, 53, 53] (.reply true)).1,
   (session_request_arm_spec [0x02, 53, 53] (.reply true)).2.1 (by decide),
   (session_request_arm_spec [0x02, 53, 53] (.reply true)).2.2.2.1 rfl,
   (session_request_arm_spec [0x02, 53, 53] .timedOut).2.2.2.2.1 (Or.inr (Or.inr rfl))⟩

/-- C9: `request_and_receive_frame` writes the Video request `[0x03]`;
it returns `none` when the response is off the Video channel or its
payload is shorter than 13 bytes, and otherwise the little-endian width
at bytes 1..3, height at bytes 3..5 and the data from byte 13 on; in
particular a host-produced video payload
`[0x01][w u16 LE][h u16 LE][0 u64 LE][jpeg]` yields `some (w, h, jpeg)`. -/
theorem request_and_receive_frame_spec (resp : Frame) (w h : Nat) (jpeg : List Nat) :
    (requestAndReceiveFrame resp).1 = ⟨.video, [0x03]⟩ ∧
    (resp.channel ≠ .video → (requestAndReceiveFrame resp).2 = none) ∧
    (resp.payload.length < 13 → (requestAndReceiveFrame resp).2 = none) ∧
    (resp.channel = .video → 13 ≤ resp.payload.length →
      (requestAndReceiveFrame resp).2 =
        some (resp.payload.getD 1 0 + resp.payload.getD 2 0 * 256,
          resp.payload.getD 3 0 + resp.payload.getD 4 0 * 256,
          resp.payload.drop 13)) ∧
    (w < 65536 → h < 65536 →
      (requestAndReceiveFrame ⟨.video, send_video_frame_payload w h jpeg⟩).2 =
        some (w, h, jpeg)) := by
  refine ⟨rfl, ?_, ?_, ?_, ?_⟩
  · intro hch
    simp [requestAndReceiveFrame, hch]
  · intro hlen
    simp [requestAndReceiveFrame, hlen]
  · intro hch hlen
    simp [requestAndReceiveFrame, hch, Nat.not_lt.mpr hlen]
  · intro hw hh
    simp only [requestAndReceiveFrame, send_video_frame_payload]
    norm_num [List.getD]
    exact ⟨by omega, by omega⟩

/-- Witness for `request_and_receive_frame_spec` at a concrete host
video payload and a concrete off-channel response. -/
theorem request_and_receive_frame_spec_witness :
    (requestAndReceiveFrame ⟨.video, send_video_frame_payload 640 480 [9, 8]⟩).2 =
      some (640, 480, [9, 8]) ∧
    (requestAndReceiveFrame ⟨.control, [1]⟩).2 = none :=
  ⟨(request_and_receive_frame_spec ⟨.video, send_video_frame_payload 640 480 [9, 8]⟩
      640 480 [9, 8]).2.2.2.2 (by decide) (by decide),
   (request_and_receive_frame_spec ⟨.control, [1]⟩ 0 0 []).2.1 (by decide)⟩

/-- Decoding the wire byte of a channel recovers the channel. -/
theorem tryFrom_toByte (ch : Channel) : Channel.tryFrom ch.toByte = .ok ch := by
  cases ch <;> rfl

/-- Big-endian byte assembly: for byte-sized `b` and `c` the Rust
expression `(a << 16) | (b << 8) | c` is plain positional arithmetic. -/
theorem byte_or_eq (a b c : Nat) (hb : b < 256) (hc : c < 256) :
    a <<< 16 ||| b <<< 8 ||| c = a * 65536 + b * 256 + c := by
  rw [Nat.shiftLeft_eq, Nat.shiftLeft_eq]
  have h1 : a * 2 ^ 16 ||| b * 2 ^ 8 = a * 2 ^ 16 + b * 2 ^ 8 := by
    have h := Nat.mul_add_lt_is_or (i := 16) (b := b * 2 ^ 8) (by norm_num; omega) a
    rw [Nat.mul_comm (2 ^ 16) a] at h
    exact h.symm
  rw [h1]
  have h2 : a * 2 ^ 16 + b * 2 ^ 8 = 2 ^ 8 * (a * 2 ^ 8 + b) := by ring
  rw [h2]
  have h3 := Nat.mul_add_lt_is_or (i := 8) (b := c) hc (a * 2 ^ 8 + b)
  rw [← h3]
  ring

/-- The length field of an encoded frame decodes to the payload length
whenever that length fits in 24 bits. -/
theorem headerLen_to_bytes (f : Frame) (hf : f.payload.length < 16777216) :
    headerLen (Frame.to_bytes f) = f.payload.length := by
  have e : headerLen (Frame.to_bytes f) =
      ((f.payload.length >>> 16) % 256) <<< 16 |||
        ((f.payload.length >>> 8) % 256) <<< 8 ||| f.payload.length % 256 := rfl
  rw [e, byte_or_eq _ _ _ (by omega) (by omega)]
  rw [Nat.shiftRight_eq_div_pow, Nat.shiftRight_eq_div_pow]
  norm_num
  omega

/-- C3 amended: encoding then decoding a frame whose payload is strictly
smaller than 16 MiB (fits in 24 bits) yields the original channel and
payload; `from_bytes` rejects any header whose channel byte is greater
than 5 and any decoded payload length greater than 16 MiB.  (At exactly
16 MiB the encoder truncates the length field to 24 bits, so the
round-trip silently returns an empty payload.) -/
theorem frame_codec_spec :
    (∀ f : Frame, f.payload.length < MAX_FRAME_SIZE →
      Frame.from_bytes (Frame.to_bytes f) = .ok f) ∧
    (∀ data : List Nat, 5 < data.getD 0 0 → exceptIsErr (Frame.from_bytes data) = true) ∧
    (∀ data : List Nat, MAX_FRAME_SIZE < headerLen data →
      exceptIsErr (Frame.from_bytes data) = true) := by
  refine ⟨?_, ?_, ?_⟩
  · intro f hf
    obtain ⟨ch, payload⟩ := f
    have hf' : payload.length < 16777216 := hf
    have hdr : headerLen (Frame.to_bytes ⟨ch, payload⟩) = payload.length :=
      headerLen_to_bytes ⟨ch, payload⟩ hf'
    unfold Frame.from_bytes
    rw [if_neg (by simp [Frame.to_bytes])]
    have hch : (Frame.to_bytes ⟨ch, payload⟩).getD 0 0 = ch.toByte := rfl
    rw [hch, tryFrom_toByte]
    simp only [hdr]
    rw [if_neg (by simp only [MAX_FRAME_SIZE]; omega)]
    rw [if_neg (by simp [Frame.to_bytes]; omega)]
    have hdrop : ((Frame.to_bytes ⟨ch, payload⟩).drop 4).take payload.length = payload := by
      have h4 : (Frame.to_bytes ⟨ch, payload⟩).drop 4 = payload := rfl
      rw [h4, List.take_length]
    rw [hdrop]
  · intro data h5
    unfold Frame.from_bytes
    by_cases h4 : data.length < 4
    · rw [if_pos h4]; rfl
    · rw [if_neg h4]
      have htf : Channel.tryFrom (data.getD 0 0) = .error "Invalid channel" := by
        unfold Channel.tryFrom
        rw [if_neg (by omega), if_neg (by omega), if_neg (by omega), if_neg (by omega),
          if_neg (by omega), if_neg (by omega)]
      rw [htf]
      rfl
  · intro data hbig
    unfold Frame.from_bytes
    by_cases h4 : data.length < 4
    · rw [if_pos h4]; rfl
    · rw [if_neg h4]
      cases htf : Channel.tryFrom (data.getD 0 0) with
      | error e => rfl
      | ok channel =>
        simp only
        rw [if_pos (by simpa using hbig)]
        rfl

/-- Witness for `frame_codec_spec` at a concrete small frame, a header
with channel byte 9, and a header whose length field exceeds 16 MiB. -/
theorem frame_codec_spec_witness :
    Frame.from_bytes (Frame.to_bytes ⟨.control, [7]⟩) = .ok ⟨.control, [7]⟩ ∧
    exceptIsErr (Frame.from_bytes [9, 0, 0, 0]) = true ∧
    exceptIsErr (Frame.from_bytes [0, 300, 0, 0]) = true :=
  ⟨frame_codec_spec.1 ⟨.control, [7]⟩ (by decide),
   frame_codec_spec.2.1 [9, 0, 0, 0] (by decide),
   frame_codec_spec.2.2 [0, 300, 0, 0] (by decide)⟩

/-- Encoding with a control channel and a payload of exactly 2^24 bytes
produces an all-zero header: the length field wraps to 0. -/
theorem to_bytes_of_len (l : List Nat) (hl : l.length = 16777216) :
    Frame.to_bytes ⟨.control, l⟩ = 0 :: 0 :: 0 :: 0 :: l := by
  simp only [Frame.to_bytes, hl, Channel.toByte]
  norm_num
  exact ⟨by decide, by decide⟩

/-- Decoding an all-zero header yields an empty control frame, whatever
bytes follow. -/
theorem from_bytes_zero_header (l : List Nat) :
    Frame.from_bytes (0 :: 0 :: 0 :: 0 :: l) = .ok ⟨.control, []⟩ := by
  unfold Frame.from_bytes
  rw [if_neg (by simp)]
  have htf : Channel.tryFrom (((0 : Nat) :: 0 :: 0 :: 0 :: l).getD 0 0) = .ok .control := rfl
  rw [htf]
  simp only
  have hdr : headerLen ((0 : Nat) :: 0 :: 0 :: 0 :: l) = 0 := by
    simp [headerLen]
  rw [hdr]
  rw [if_neg (by norm_num [MAX_FRAME_SIZE])]
  rw [if_neg (by simp)]
  rw [List.take_zero]

/-- C3 counterexample: at a payload of exactly 16 MiB — which the claim
admits with "at most 16 MiB" — the round-trip does not return the
original frame: the encoder truncates the 25-bit length to 0, so
decoding yields an empty payload. -/
theorem frame_roundtrip_fails_at_16MiB :
    Frame.from_bytes (Frame.to_bytes ⟨.control, List.replicate 16777216 0⟩) =
      .ok ⟨.control, []⟩ ∧
    (⟨.control, ([] : List Nat)⟩ : Frame) ≠ ⟨.control, List.replicate 16777216 0⟩ := by
  constructor
  · rw [to_bytes_of_len _ (List.length_replicate _ _), from_bytes_zero_header]
  · intro h
    have h2 := congrArg (fun f : Frame => f.payload.length) h
    simp only at h2
    rw [List.length_nil, List.length_replicate] at h2
    exact absurd h2 (by norm_num)

/-- Sequencing never panics when neither side does. -/
theorem PRes.bind_isCrash {α β : Type} {x : PRes α} {f : α → PRes β}
    (hx : x.isCrash = false) (hf : ∀ a, (f a).isCrash = false) :
    (x.bind f).isCrash = false := by
  cases x <;> simp_all [PRes.bind, PRes.isCrash]

/-- An in-bounds index never panics. -/
theorem idx_isCrash {data : List Nat} {i : Nat} (h : i < data.length) :
    (idx data i).isCrash = false := by
  unfold idx
  rw [List.get?_eq_get h]
  rfl

/-- An in-bounds slice never panics. -/
theorem slice_isCrash {data : List Nat} {i : Nat} (h : i ≤ data.length) :
    (slice data i).isCrash = false := by
  simp [slice, h, PRes.isCrash]

/-- Every index and slice in `decode_addr` is covered by the preceding
length checks, so it never panics. -/
theorem decode_addr_isCrash (data : List Nat) :
    (P2PInfo.decode_addr data).isCrash = false := by
  unfold P2PInfo.decode_addr
  by_cases h0 : data.length = 0
  · simp [h0, PRes.isCrash]
  · rw [if_neg h0]
    refine PRes.bind_isCrash (idx_isCrash (by omega)) fun family => ?_
    by_cases h4 : family = 4
    · rw [if_pos h4]
      by_cases h7 : data.length < 7
      · simp [h7, PRes.isCrash]
      · rw [if_neg h7]
        refine PRes.bind_isCrash (idx_isCrash (by omega)) fun _ => ?_
        refine PRes.bind_isCrash (idx_isCrash (by omega)) fun _ => ?_
        refine PRes.bind_isCrash (idx_isCrash (by omega)) fun _ => ?_
        refine PRes.bind_isCrash (idx_isCrash (by omega)) fun _ => ?_
        refine PRes.bind_isCrash (idx_isCrash (by omega)) fun _ => ?_
        refine PRes.bind_isCrash (idx_isCrash (by omega)) fun _ => ?_
        rfl
    · rw [if_neg h4]
      by_cases h6 : family = 6
      · rw [if_pos h6]
        by_cases h19 : data.length < 19
        · simp [h19, PRes.isCrash]
        · rw [if_neg h19]
          refine PRes.bind_isCrash (slice_isCrash (by omega)) fun _ => ?_
          refine PRes.bind_isCrash (idx_isCrash (by omega)) fun _ => ?_
          refine PRes.bind_isCrash (idx_isCrash (by omega)) fun _ => ?_
          rfl
      · rw [if_neg h6]
        rfl

/-- The local-address half of `decode` never panics, whatever the
cursor position. -/
theorem decodeLocal_isCrash (data : List Nat) (pos : Nat) (pub : Option SocketAddr)
    (en : Bool) : (P2PInfo.decodeLocal data pos pub en).isCrash = false := by
  unfold P2PInfo.decodeLocal
  by_cases hc : pos < data.length ∧ data.getD pos 0 = 1
  · rw [if_pos hc]
    refine PRes.bind_isCrash (slice_isCrash (by omega)) fun rest => ?_
    refine PRes.bind_isCrash (decode_addr_isCrash rest) fun _ => ?_
    rfl
  · rw [if_neg hc]
    rfl

/-- `P2PInfo::decode` never panics on any input. -/
theorem decode_isCrash (data : List Nat) : (P2PInfo.decode data).isCrash = false := by
  unfold P2PInfo.decode
  by_cases h0 : data.length = 0
  · simp [h0, PRes.isCrash]
  · rw [if_neg h0]
    refine PRes.bind_isCrash (idx_isCrash (by omega)) fun b0 => ?_
    by_cases hc : 1 < data.length ∧ data.getD 1 0 = 1
    · rw [if_pos hc]
      refine PRes.bind_isCrash (slice_isCrash (by omega)) fun rest => ?_
      refine PRes.bind_isCrash (decode_addr_isCrash rest) fun pub => ?_
      exact decodeLocal_isCrash _ _ _ _
    · rw [if_neg hc]
      exact decodeLocal_isCrash _ _ _ _

/-- C10: `P2PInfo::decode` is total at its public interface: on every
byte sequence it returns an Ok value or an error and never panics or
indexes out of bounds, and the empty input yields an error. -/
theorem p2pinfo_decode_total :
    (∀ data : List Nat, (P2PInfo.decode data).isCrash = false) ∧
    (P2PInfo.decode []).isErr = true :=
  ⟨decode_isCrash, by decide⟩

/-- Unfolding of `decimalDigits` below ten. -/
theorem decimalDigits_lt10 {n : Nat} (h : n < 10) :
    decimalDigits n = [Nat.digitChar n] := by
  rw [decimalDigits]
  simp [h]

/-- Unfolding of `decimalDigits` at ten or above. -/
theorem decimalDigits_ge10 {n : Nat} (h : ¬ n < 10) :
    decimalDigits n = decimalDigits (n / 10) ++ [Nat.digitChar (n % 10)] := by
  rw [decimalDigits]
  simp [h]

/-- A number below `10 ^ (k + 1)` prints in at most `k + 1` digits. -/
theorem decimalDigits_length_le :
    ∀ k n : Nat, n < 10 ^ (k + 1) → (decimalDigits n).length ≤ k + 1 := by
  intro k
  induction k with
  | zero =>
    intro n h
    rw [decimalDigits_lt10 (by norm_num at h; omega)]
    simp
  | succ k ih =>
    intro n h
    by_cases h10 : n < 10
    · rw [decimalDigits_lt10 h10]
      simp
    · rw [decimalDigits_ge10 h10]
      have hdiv : n / 10 < 10 ^ (k + 1) := by
        have hp : (10 : Nat) ^ (k + 2) = 10 ^ (k + 1) * 10 := by ring
        rw [hp] at h
        omega
      have := ih (n / 10) hdiv
      simp only [List.length_append, List.length_singleton]
      omega

/-- Zero-width digit expansion is empty. -/
theorem arithDigits_zero (n : Nat) : arithDigits 0 n = [] := rfl

/-- Peeling the most significant digit off `arithDigits`. -/
theorem arithDigits_succ (k n : Nat) :
    arithDigits (k + 1) n = Nat.digitChar (n / 10 ^ k % 10) :: arithDigits k n := by
  unfold arithDigits
  rw [List.range_succ]
  simp

/-- Peeling the least significant digit off `arithDigits`. -/
theorem arithDigits_succ' (k n : Nat) :
    arithDigits (k + 1) n = arithDigits k (n / 10) ++ [Nat.digitChar (n % 10)] := by
  unfold arithDigits
  rw [List.range_succ_eq_map]
  simp only [List.reverse_cons, List.map_append, List.map_map, List.map_cons,
    List.map_nil, List.map_reverse]
  congr 1
  · refine congrArg List.reverse ?_
    refine List.map_congr_left ?_
    intro i _
    simp only [Function.comp_apply]
    congr 1
    rw [pow_succ, Nat.mul_comm, ← Nat.div_div_eq_div_mul]
  · simp

/-- Rust's zero-padding to width `k + 1` agrees with the arithmetic
digit expansion for every number that fits in that width. -/
theorem pad_eq_arith :
    ∀ k n : Nat, n < 10 ^ (k + 1) →
      List.replicate ((k + 1) - (decimalDigits n).length) '0' ++ decimalDigits n =
        arithDigits (k + 1) n := by
  intro k
  induction k with
  | zero =>
    intro n h
    have h10 : n < 10 := by norm_num at h; omega
    rw [decimalDigits_lt10 h10]
    simp [arithDigits_succ, arithDigits_zero, Nat.mod_eq_of_lt h10]
  | succ k ih =>
    intro n h
    by_cases hk : n < 10 ^ (k + 1)
    · have hlen : (decimalDigits n).length ≤ k + 1 := decimalDigits_length_le k n hk
      have hstep : (k + 2) - (decimalDigits n).length =
          ((k + 1) - (decimalDigits n).length) + 1 := by omega
      rw [hstep, List.replicate_succ, List.cons_append, ih n hk,
        arithDigits_succ (k + 1) n, Nat.div_eq_of_lt hk]
      rfl
    · have h10 : ¬ n < 10 := by
        have : (10 : Nat) ≤ 10 ^ (k + 1) := by
          calc (10 : Nat) = 10 ^ 1 := (pow_one 10).symm
          _ ≤ 10 ^ (k + 1) := Nat.pow_le_pow_right (by norm_num) (by omega)
        omega
      rw [decimalDigits_ge10 h10]
      have hdiv : n / 10 < 10 ^ (k + 1) := by
        have hp : (10 : Nat) ^ (k + 2) = 10 ^ (k + 1) * 10 := by ring
        rw [hp] at h
        omega
      simp only [List.length_append, List.length_singleton]
      have hlen2 : (decimalDigits (n / 10)).length ≤ k + 1 :=
        decimalDigits_length_le k _ hdiv
      have hstep : (k + 2) - ((decimalDigits (n / 10)).length + 1) =
          (k + 1) - (decimalDigits (n / 10)).length := by omega
      rw [hstep, ← List.append_assoc, ih _ hdiv, arithDigits_succ' (k + 1) n]

/-- `format!("{:09}", num)` produces exactly the nine arithmetic digits
of a value below 10^9. -/
theorem padNineId_eq (num : Nat) (h : num < 1000000000) :
    padNineId num = arithDigits 9 num := by
  have h9 : num < 10 ^ (8 + 1) := by norm_num; omega
  exact pad_eq_arith 8 num h9

/-- C6: `device_id()` formats `u64-LE(first 8 BLAKE3 bytes) mod 10^9`,
zero-padded to nine digits, as three space-separated groups of three —
the spec-side format — and in particular a hash whose value is
123456789 gives "123 456 789". -/
theorem device_id_spec (hash : List Nat) :
    Identity.device_id hash = specDeviceIdFormat (u64_from_le8 hash % 1000000000) ∧
    (u64_from_le8 hash % 1000000000 = 123456789 →
      Identity.device_id hash = "123 456 789") := by
  have hm : u64_from_le8 hash % 1000000000 < 1000000000 := Nat.mod_lt _ (by norm_num)
  set num := u64_from_le8 hash % 1000000000 with hnum
  have hmain : Identity.device_id hash = specDeviceIdFormat num := by
    unfold Identity.device_id specDeviceIdFormat
    dsimp only
    rw [padNineId_eq _ hm]
    simp only [arithDigits_succ, arithDigits_zero]
    norm_num [List.take, List.drop]
    have e1 : num / 100000000 % 10 = num / 1000000 / 100 % 10 := by omega
    have e2 : num / 10000000 % 10 = num / 1000000 / 10 % 10 := by omega
    have e3 : num / 100000 % 10 = num / 1000 % 1000 / 100 % 10 := by omega
    have e4 : num / 10000 % 10 = num / 1000 % 1000 / 10 % 10 := by omega
    have e5 : num / 100 % 10 = num % 1000 / 100 % 10 := by omega
    have e6 : num / 10 % 10 = num % 1000 / 10 % 10 := by omega
    rw [e1, e2, e3, e4, e5, e6]
  refine ⟨hmain, fun h => ?_⟩
  rw [hmain, h]
  decide

/-- Witness for `device_id_spec` at the hash whose first eight bytes
little-endian equal 123456789. -/
theorem device_id_spec_witness :
    Identity.device_id [0x15, 0xCD, 0x5B, 0x07, 0, 0, 0, 0] = "123 456 789" :=
  (device_id_spec [0x15, 0xCD, 0x5B, 0x07, 0, 0, 0, 0]).2 (by decide)
